import Mathlib

/-!
Verification development for the `http_filesystem_bridge` in-memory HTTP-backed
filesystem. The definitions below are a shallow embedding of the Rust sources:

* `src/utils/timeout.rs`    → `waitLoop`, `waitExit`, `wait_with_timeout`
* `src/fs/handler/memfs_handler.rs`
    - `write_file`          → `write_file`
    - `read_file`           → `read_file` (with `do_read`)
    - `get_file_information`→ `get_file_information`
    - `create_file`, existing-entry arm  → `create_file_existing`, `open_entry_kind`
    - `create_file`, missing-leaf arm    → `create_file_missing`
    - `create_new`          → `create_new`
    - `create_new_http`     → `create_new_http`
    - `create_new_http_stream` (spawned async body) → `create_new_http_stream`, `downloadTask`
* `src/fs/handler/entry_handler.rs`
    - `EntryHandle::new`    → `entryHandleNew`
    - `EntryHandle::drop`   → `entryHandleDrop`, `dropStreamPart`
* `src/path.rs`
    - `StreamInfo::check_default` → `StreamInfoM.check_default`
    - `find_dir_entry`      → `find_dir_entry`
* `src/thread_pool.rs`
    - `Worker::new` message loop → `worker_run`

Machine integers are modelled as `Nat` (the handled values never overflow the
source's `u32`/`u64`/`i64` ranges on the paths proved about); `i64` timeout
arithmetic, which does go negative, is modelled as `Int`. Byte buffers are
`List Nat`. NTSTATUS codes are the source's `i32` values, as `Int`.
Rust `assert!` failures (panics) are modelled as an explicit `assertFail`
outcome of the operation.
-/

namespace HFB

/-! Section: NTSTATUS codes (i32 values of the `winapi` constants used) -/

/-- Signed 32-bit value of an NTSTATUS given as its unsigned hex form. -/
def ntstatus (v : Nat) : Int := (v : Int) - 0x100000000

def STATUS_ACCESS_DENIED : Int := ntstatus 0xC0000022
def STATUS_OBJECT_NAME_INVALID : Int := ntstatus 0xC0000033
def STATUS_OBJECT_NAME_NOT_FOUND : Int := ntstatus 0xC0000034
def STATUS_OBJECT_NAME_COLLISION : Int := ntstatus 0xC0000035
def STATUS_OBJECT_PATH_NOT_FOUND : Int := ntstatus 0xC000003A
def STATUS_LOCK_NOT_GRANTED : Int := ntstatus 0xC0000055
def STATUS_DELETE_PENDING : Int := ntstatus 0xC0000056
def STATUS_IO_TIMEOUT : Int := ntstatus 0xC00000B5
def STATUS_FILE_IS_A_DIRECTORY : Int := ntstatus 0xC00000BA
def STATUS_NOT_A_DIRECTORY : Int := ntstatus 0xC0000103
def STATUS_CANNOT_DELETE : Int := ntstatus 0xC0000121
def STATUS_INVALID_PARAMETER : Int := ntstatus 0xC000000D
def STATUS_INVALID_DEVICE_REQUEST : Int := ntstatus 0xC0000010

/-! Section: winnt / dokan constants -/

def FILE_ATTRIBUTE_READONLY : Nat := 0x1
def FILE_ATTRIBUTE_HIDDEN : Nat := 0x2
def FILE_ATTRIBUTE_SYSTEM : Nat := 0x4
def FILE_ATTRIBUTE_DIRECTORY : Nat := 0x10
def FILE_ATTRIBUTE_ARCHIVE : Nat := 0x20
def FILE_ATTRIBUTE_NORMAL : Nat := 0x80
def FILE_ATTRIBUTE_TEMPORARY : Nat := 0x100
def FILE_ATTRIBUTE_OFFLINE : Nat := 0x1000
def FILE_ATTRIBUTE_NOT_CONTENT_INDEXED : Nat := 0x2000

def FILE_WRITE_DATA : Nat := 0x2
def FILE_APPEND_DATA : Nat := 0x4
def FILE_READ_ATTRIBUTES : Nat := 0x80

def FILE_DIRECTORY_FILE : Nat := 0x1
def FILE_NON_DIRECTORY_FILE : Nat := 0x40
def FILE_DELETE_ON_CLOSE : Nat := 0x1000

def FILE_SUPERSEDE : Nat := 0
def FILE_OPEN : Nat := 1
def FILE_CREATE : Nat := 2
def FILE_OPEN_IF : Nat := 3
def FILE_OVERWRITE : Nat := 4
def FILE_OVERWRITE_IF : Nat := 5
def FILE_MAXIMUM_DISPOSITION : Nat := 5

/-! Section: `wait_with_timeout` (src/utils/timeout.rs)

The source's `should_continue` closure re-reads shared state on every poll;
the model indexes the predicate by the poll number. `waitLoop` mirrors the
`while timeout > 0 && should_continue()` loop: it returns the final value of
`timeout` together with the poll index at which the loop stopped. The `fuel`
argument is only a structural-recursion bound: since every iteration lowers
`timeout` by `delay ≥ 1` in every call site, `timeout.toNat` iterations always
suffice, so the fuel case is never the reason the loop stops (the lemmas below
depend only on `t.toNat ≤ delay * fuel`). -/

def waitLoop (cont : Nat → Bool) (delay : Nat) : Nat → Int → Nat → Int × Nat
  | 0, timeout, i => (timeout, i)
  | fuel + 1, timeout, i =>
    if 0 < timeout ∧ cont i = true then
      waitLoop cont delay fuel (timeout - (delay : Int)) (i + 1)
    else (timeout, i)

/-- Final `timeout` value and exit poll index of the wait loop. -/
def waitExit (cont : Nat → Bool) (timeout : Int) (delay : Nat) : Int × Nat :=
  waitLoop cont delay timeout.toNat timeout 0

/-- Model of `wait_with_timeout`: on budget exhaustion the `on_timeout`
closure's result (or `STATUS_IO_TIMEOUT` by default) is returned, otherwise
the remaining budget. -/
def wait_with_timeout (cont : Nat → Bool) (timeout : Int) (delay : Nat)
    (on_timeout : Option (Except Int Int)) : Except Int Int :=
  let r := waitExit cont timeout delay
  if r.1 ≤ 0 then
    match on_timeout with
    | some res => res
    | none => .error STATUS_IO_TIMEOUT
  else .ok r.1

theorem waitLoop_timeout_of (cont : Nat → Bool) (delay : Nat) :
    ∀ (fuel : Nat) (t : Int) (i n : Nat),
      t.toNat ≤ delay * n → n ≤ fuel →
      (∀ j, i ≤ j → j < i + n → cont j = true) →
      (waitLoop cont delay fuel t i).1 ≤ 0 := by
  intro fuel
  induction fuel with
  | zero =>
    intro t i n h1 h2 _
    have hn : n = 0 := Nat.le_zero.mp h2
    subst hn
    simp only [waitLoop]
    omega
  | succ fuel ih =>
    intro t i n h1 h2 h3
    simp only [waitLoop]
    by_cases hc : 0 < t ∧ cont i = true
    · rw [if_pos hc]
      rcases n with _ | m
      · exfalso
        simp only [Nat.mul_zero] at h1
        omega
      · have hmul : delay * (m + 1) = delay * m + delay := Nat.mul_succ delay m
        rw [hmul] at h1
        refine ih (t - (delay : Int)) (i + 1) m ?_ ?_ ?_
        · omega
        · omega
        · intro j hj1 hj2
          exact h3 j (by omega) (by omega)
    · rw [if_neg hc]
      by_contra hpos
      push_neg at hpos
      rcases Nat.eq_zero_or_pos n with hn | hn
      · subst hn
        simp only [Nat.mul_zero] at h1
        omega
      · exact hc ⟨by omega, h3 i (Nat.le_refl i) (by omega)⟩

theorem waitLoop_exit_cont_false (cont : Nat → Bool) (delay : Nat) :
    ∀ (fuel : Nat) (t : Int) (i : Nat),
      t.toNat ≤ delay * fuel →
      0 < (waitLoop cont delay fuel t i).1 →
      cont (waitLoop cont delay fuel t i).2 = false := by
  intro fuel
  induction fuel with
  | zero =>
    intro t i h1 hpos
    simp only [waitLoop] at hpos ⊢
    omega
  | succ fuel ih =>
    intro t i h1 hpos
    simp only [waitLoop] at hpos ⊢
    by_cases hc : 0 < t ∧ cont i = true
    · rw [if_pos hc] at hpos ⊢
      have hmul : delay * (fuel + 1) = delay * fuel + delay := Nat.mul_succ delay fuel
      rw [hmul] at h1
      exact ih (t - (delay : Int)) (i + 1) (by omega) hpos
    · rw [if_neg hc] at hpos ⊢
      rcases Bool.eq_false_or_eq_true (cont i) with hci | hci
      · exact absurd ⟨hpos, hci⟩ hc
      · exact hci

/-! Section: AltStream and handles (src/fs/metadata.rs, src/fs/handler/entry_handler.rs)

An `AltStream` as the download task and the open/close machinery see it. -/

structure AltStreamM where
  handleCount : Nat
  deletePending : Bool
  data : List Nat
  contentLength : Nat
deriving DecidableEq

/-- Model of `AltStream::new()`: zero counts, empty buffer, unknown length. -/
def AltStreamM.new : AltStreamM := ⟨0, false, [], 0⟩

/-- Entry as seen through an open handle during `read_file` /
`get_file_information`. A `HttpFile`'s `download_pending` flag is re-read on
every poll, so it is indexed by the poll number; the field itself is missing
from the checked-in `entry.rs` and is taken from its uses in
`memfs_handler.rs` and the spec's HttpFile description. `data_cache` is the
`HttpFileEntry::data_cache` field. -/
inductive HEntry where
  | file (data : List Nat)
  | httpFile (download_pending : Nat → Bool) (data_cache : Option (List Nat))
  | directory

def HEntry.isDir : HEntry → Bool
  | .directory => true
  | _ => false

/-- A bound alternate stream is written concurrently by the download task;
reads observe it poll by poll, so the handle carries a poll-indexed view.
The source appends only (`extend_from_slice`), so the observation at the
exit poll is the state the final `stream.read()` sees. -/
structure HandleM where
  entry : HEntry
  entryAttrs : Nat
  altStream : Option (Nat → AltStreamM)

/-- Model of `EntryHandle::is_dir`. -/
def HandleM.is_dir (h : HandleM) : Bool :=
  if h.altStream.isSome then false else h.entry.isDir

/-- Model of `Attributes::get_output_attrs`. -/
def get_output_attrs (value : Nat) (is_dir : Bool) : Nat :=
  let attrs := if is_dir then value ||| FILE_ATTRIBUTE_DIRECTORY else value
  if attrs = 0 then FILE_ATTRIBUTE_NORMAL else attrs

/-- Model of `Attributes::new`: masks to the supported attribute set. -/
def attributes_new (attrs : Nat) : Nat :=
  attrs &&& (FILE_ATTRIBUTE_ARCHIVE ||| FILE_ATTRIBUTE_NORMAL |||
    FILE_ATTRIBUTE_HIDDEN ||| FILE_ATTRIBUTE_NOT_CONTENT_INDEXED |||
    FILE_ATTRIBUTE_OFFLINE ||| FILE_ATTRIBUTE_READONLY |||
    FILE_ATTRIBUTE_SYSTEM ||| FILE_ATTRIBUTE_TEMPORARY)

/-! Section: `write_file` (src/fs/handler/memfs_handler.rs lines 896-906)

The handler's `write_file` body is a single `Err(STATUS_ACCESS_DENIED)`;
every argument is unused. -/

def write_file (_context : HandleM) (_offset : Int) (_buffer : List Nat) :
    Except Int Nat :=
  .error STATUS_ACCESS_DENIED

/-! Section: `read_file` (src/fs/handler/memfs_handler.rs lines 796-894) -/

/-- Outcome of a read: a successful copy (returned length and the bytes placed
in the buffer), an error status, or a Rust panic from a failed `assert!`. -/
inductive ReadOutcome where
  | ok (len : Nat) (bytes : List Nat)
  | error (status : Int)
  | assertFail (msg : String)
deriving DecidableEq

/-- The `do_read` closure: `len = min(buffer.len(), data.len() - offset)`,
then copy `data[offset..offset + len]`. (On every reachable call
`data.len() ≥ offset`, so the `usize` subtraction matches `Nat` subtraction.) -/
def do_read (data : List Nat) (offset buflen : Nat) : ReadOutcome :=
  let len := min buflen (data.length - offset)
  .ok len ((data.drop offset).take len)

def read_file (context : HandleM) (offset buflen : Nat) : ReadOutcome :=
  match context.altStream with
  | some obs =>
    -- wait until the stream buffer is non-empty and covers [offset, offset+buflen)
    let cont : Nat → Bool := fun j =>
      decide ((obs j).data.length = 0) || decide ((obs j).data.length < offset + buflen)
    match wait_with_timeout cont 5000 50 (some (.error STATUS_LOCK_NOT_GRANTED)) with
    | .error s => .error s
    | .ok _ => do_read (obs (waitExit cont 5000 50).2).data offset buflen
  | none =>
    match context.entry with
    | .file _ => .assertFail "can not be here! 2"
    | .httpFile download_pending data_cache =>
      match wait_with_timeout download_pending 5000 10 (some (.error STATUS_IO_TIMEOUT)) with
      | .error s => .error s
      | .ok _ =>
        match data_cache with
        | none => .assertFail "called Option::unwrap on a None value"
        | some _ => .assertFail "can not be here!"
    | .directory => .error STATUS_INVALID_DEVICE_REQUEST

/-! Section: `get_file_information` (src/fs/handler/memfs_handler.rs lines 917-964) -/

structure FileInfoM where
  attributes : Nat
  fileSize : Nat
deriving DecidableEq

def get_file_information (context : HandleM) : Except Int FileInfoM :=
  match context.altStream with
  | some obs =>
    -- wait until `content_length` becomes nonzero; `len` keeps the value read
    -- by the last evaluation of the predicate
    let cont : Nat → Bool := fun j => decide ((obs j).contentLength = 0)
    match wait_with_timeout cont 5000 10 (some (.error STATUS_IO_TIMEOUT)) with
    | .error s => .error s
    | .ok _ =>
      .ok { attributes := get_output_attrs context.entryAttrs false,
            fileSize := (obs (waitExit cont 5000 10).2).contentLength }
  | none =>
    .ok { attributes := get_output_attrs context.entryAttrs context.entry.isDir,
          fileSize :=
            match context.entry with
            | .file data => data.length
            | .httpFile _ data_cache => (data_cache.map List.length).getD 0
            | .directory => 0 }

/-- C1 (amended): every Write operation, whatever the handle is bound to
(local File content, an alternate stream, or HTTP-origin content), fails with
STATUS_ACCESS_DENIED; no write ever stores bytes. -/
theorem write_file_always_access_denied :
    ∀ (context : HandleM) (offset : Int) (buffer : List Nat),
      write_file context offset buffer = .error STATUS_ACCESS_DENIED :=
  fun _ _ _ => rfl

/-- C1 counterexample: on a handle bound to a local File's content, a Write
does not succeed (the claim predicts `.ok 2` here); it returns access-denied. -/
theorem write_file_local_file_counterexample :
    write_file ⟨.file [104], FILE_ATTRIBUTE_ARCHIVE, none⟩ 0 [105, 106] ≠ .ok 2
    ∧ write_file ⟨.file [104], FILE_ATTRIBUTE_ARCHIVE, none⟩ 0 [105, 106]
        = .error STATUS_ACCESS_DENIED :=
  ⟨by intro h; simp [write_file] at h, rfl⟩

/-- C2 (amended): a Read on a handle to a plain File entry with no bound
AltStream never performs the copy: the code fails the internal assertion
`can not be here! 2` (a panic) before reaching the copy. -/
theorem read_file_plain_file_asserts_unreachable :
    ∀ (data : List Nat) (attrs offset buflen : Nat),
      read_file ⟨.file data, attrs, none⟩ offset buflen
        = .assertFail "can not be here! 2" :=
  fun _ _ _ _ => rfl

/-- C2 counterexample: reading bytes 0..5 of a plain resident File "hello"
does not yield the direct copy the claim describes; the operation dies on the
`can not be here! 2` assertion. -/
theorem read_file_plain_file_counterexample :
    read_file ⟨.file [104, 101, 108, 108, 111], FILE_ATTRIBUTE_ARCHIVE, none⟩ 0 5
        ≠ .ok 5 [104, 101, 108, 108, 111]
    ∧ read_file ⟨.file [104, 101, 108, 108, 111], FILE_ATTRIBUTE_ARCHIVE, none⟩ 0 5
        = .assertFail "can not be here! 2" :=
  ⟨by decide, rfl⟩

/-- C4 (amended): a Read on an AltStream-bound handle whose buffered data does
not come to cover `[offset, offset + buflen)` within the 5000 ms / 50 ms-step
wait budget (100 polls) fails with STATUS_LOCK_NOT_GRANTED — the lock-
not-granted status, not the I/O-timeout status. -/
theorem read_file_timeout_lock_not_granted :
    ∀ (e : HEntry) (attrs : Nat) (obs : Nat → AltStreamM) (offset buflen : Nat),
      (∀ i, i < 100 →
        (obs i).data.length = 0 ∨ (obs i).data.length < offset + buflen) →
      read_file ⟨e, attrs, some obs⟩ offset buflen
        = .error STATUS_LOCK_NOT_GRANTED := by
  intro e attrs obs offset buflen h
  have hcont : ∀ j, 0 ≤ j → j < 0 + 100 →
      (fun j => decide ((obs j).data.length = 0)
        || decide ((obs j).data.length < offset + buflen)) j = true := by
    intro j _ hj
    rcases h j (by omega) with h' | h' <;> simp [h']
  have ht := waitLoop_timeout_of
    (fun j => decide ((obs j).data.length = 0)
      || decide ((obs j).data.length < offset + buflen))
    50 (Int.toNat 5000) 5000 0 100 (by norm_num) (by norm_num) hcont
  simp only [read_file, wait_with_timeout, waitExit]
  rw [if_pos ht]

/-- C4 witness: a stream that stays one byte long never covers a five-byte
request at offset two, and the read indeed reports lock-not-granted. -/
theorem read_file_timeout_lock_not_granted_witness :
    read_file ⟨.directory, 0, some (fun _ => ⟨0, false, [104], 9⟩)⟩ 2 3
      = .error STATUS_LOCK_NOT_GRANTED :=
  read_file_timeout_lock_not_granted .directory 0 (fun _ => ⟨0, false, [104], 9⟩)
    2 3 (fun _ _ => Or.inr (by show ([104] : List Nat).length < 2 + 3; decide))

/-- C4 counterexample: with a bound AltStream whose buffer never fills, the
read's budget-exhaustion status is STATUS_LOCK_NOT_GRANTED, which is a
different status from STATUS_IO_TIMEOUT — refuting the claim that the timeout
yields the I/O-timeout status. -/
theorem read_file_timeout_counterexample :
    read_file ⟨.directory, 0, some (fun _ => AltStreamM.new)⟩ 0 4
      = .error STATUS_LOCK_NOT_GRANTED
    ∧ STATUS_LOCK_NOT_GRANTED ≠ STATUS_IO_TIMEOUT :=
  ⟨by decide, by decide⟩

/-- C10: a GetInfo on an AltStream-bound handle reports the stream's
`content_length` and never reports 0: while `content_length` is 0 it polls in
10 ms steps against the 5000 ms budget (500 polls), and if `content_length`
is still 0 throughout, the call fails with STATUS_IO_TIMEOUT instead of
returning a size. -/
theorem get_file_information_size_wait :
    ∀ (context : HandleM) (obs : Nat → AltStreamM),
      context.altStream = some obs →
      ((∀ i, i < 500 → (obs i).contentLength = 0) →
        get_file_information context = .error STATUS_IO_TIMEOUT)
      ∧ (∀ info, get_file_information context = .ok info →
        info.fileSize ≠ 0 ∧ ∃ i, info.fileSize = (obs i).contentLength) := by
  intro context obs hcs
  constructor
  · intro h
    have hcont : ∀ j, 0 ≤ j → j < 0 + 500 →
        (fun j => decide ((obs j).contentLength = 0)) j = true := by
      intro j _ hj
      simp [h j (by omega)]
    have ht := waitLoop_timeout_of (fun j => decide ((obs j).contentLength = 0))
      10 (Int.toNat 5000) 5000 0 500 (by norm_num) (by norm_num) hcont
    simp only [get_file_information, hcs, wait_with_timeout, waitExit]
    rw [if_pos ht]
  · intro info hinfo
    simp only [get_file_information, hcs, wait_with_timeout, waitExit] at hinfo
    by_cases ht :
        (waitLoop (fun j => decide ((obs j).contentLength = 0))
          10 (Int.toNat 5000) 5000 0).1 ≤ 0
    · rw [if_pos ht] at hinfo
      exact absurd hinfo (by simp)
    · rw [if_neg ht] at hinfo
      simp only [Except.ok.injEq] at hinfo
      have hc := waitLoop_exit_cont_false
        (fun j => decide ((obs j).contentLength = 0))
        10 (Int.toNat 5000) 5000 0 (by norm_num) (by omega)
      simp only [decide_eq_false_iff_not] at hc
      refine ⟨?_, ?_⟩
      · rw [← hinfo]
        exact hc
      · exact ⟨_, by rw [← hinfo]⟩

/-- C10 witness: a stream whose `content_length` stays 0 drives GetInfo into
the I/O-timeout failure. -/
theorem get_file_information_size_wait_witness :
    get_file_information ⟨.directory, 0, some (fun _ => AltStreamM.new)⟩
      = .error STATUS_IO_TIMEOUT :=
  (get_file_information_size_wait ⟨.directory, 0, some (fun _ => AltStreamM.new)⟩
    (fun _ => AltStreamM.new) rfl).1 (fun _ _ => rfl)

/-! Section: Download engine (src/fs/handler/memfs_handler.rs lines 282-399)

`create_new_http_stream` makes a fresh `AltStream` and unconditionally submits
one async task to the thread pool; the task body is modelled by
`downloadTask`. The HTTP interaction is abstracted as the outcome of
`client.get(url).send()`: either a failure, or a response carrying an optional
`content_length` header and a list of body chunks. -/

inductive HttpGetResult where
  | failure
  | success (contentLength : Option Nat) (chunks : List (List Nat))

/-- How the spawned future resolves: `Ok(())`, `Err(reqwest error)`, or a
panic of the `assert!(full_download)` line (headers carried no content length
and only attribute access was requested). -/
inductive TaskOutcome where
  | okdone
  | errReturned
  | assertFailed
deriving DecidableEq

structure TaskRun where
  stream : AltStreamM
  callbackInvoked : Bool
  outcome : TaskOutcome
deriving DecidableEq

/-- Body of the async task spawned by `create_new_http_stream`, acting on the
fresh stream it was given. On GET failure the error is logged and returned —
the stream is left untouched and the `on_done` callback is never invoked.
On success the `content_length` header is stored; if only attribute access
was requested (`!full_download`) the task returns early (also without the
callback); otherwise the body chunks are appended one by one and the callback
runs after the last chunk. (Chunk-level transport errors, which the source
`unwrap`s, are not modelled: `chunks` are the successfully received chunks.) -/
def downloadTask (resp : HttpGetResult) (full_download : Bool)
    (s : AltStreamM) : TaskRun :=
  match resp with
  | .failure => ⟨s, false, .errReturned⟩
  | .success clOpt chunks =>
    let s1 := match clOpt with
      | some cl => { s with contentLength := cl }
      | none => s
    if clOpt.isSome ∧ full_download = false then
      ⟨s1, false, .okdone⟩ -- `return Ok(())` right after the headers
    else if full_download then
      ⟨chunks.foldl (fun acc c => { acc with data := acc.data ++ c }) s1,
        true, .okdone⟩
    else
      ⟨s1, false, .assertFailed⟩ -- `assert!(full_download)`

/-- The `on_done` callback built in `create_new_http` clears the owning
HttpFile's `download_pending` flag; the flag changes only if the task actually
invoked the callback. -/
def download_pending_after (r : TaskRun) (download_pending : Bool) : Bool :=
  if r.callbackInvoked then false else download_pending

/-- Result of `create_new_http_stream` itself (the synchronous part): the
fresh stream handed back to the caller, and the fact that a pool task was
submitted (`execute_async` is called unconditionally). -/
structure HttpStreamOut where
  stream : AltStreamM
  taskSubmitted : Bool
deriving DecidableEq

def create_new_http_stream (_full_download : Bool) : HttpStreamOut :=
  ⟨AltStreamM.new, true⟩

/-! Section: Worker loop (src/thread_pool.rs lines 106-153)

Each worker repeatedly takes a message from the shared receiver. A delivered
job is executed; an async job's `Err` result is only logged (`debug!`) and the
loop continues. The loop breaks only when the channel is disconnected. -/

inductive WorkerMsg where
  | job (outcome : TaskOutcome)
  | disconnected

/-- Number of jobs a worker executes given the sequence of messages its
`recv` calls produce. -/
def worker_run : List WorkerMsg → Nat
  | [] => 0
  | .job _ :: rest => worker_run rest + 1
  | .disconnected :: _ => 0

/-- C5: a download task whose HTTP GET fails is recovered inside the task —
its `Err` is handed to the worker, which logs it and keeps processing jobs
exactly as after a success; the bound AltStream is left as freshly created
(in particular `content_length` is still 0), and since the completion
callback is never invoked the owning HttpFile's `download_pending` flag is
never cleared by that task. -/
theorem download_failure_recovered :
    ∀ (full_download download_pending : Bool) (rest : List WorkerMsg),
      (downloadTask .failure full_download AltStreamM.new).stream.contentLength = 0
      ∧ (downloadTask .failure full_download AltStreamM.new).stream = AltStreamM.new
      ∧ (downloadTask .failure full_download AltStreamM.new).callbackInvoked = false
      ∧ download_pending_after (downloadTask .failure full_download AltStreamM.new)
          download_pending = download_pending
      ∧ worker_run (.job (downloadTask .failure full_download AltStreamM.new).outcome :: rest)
          = worker_run (.job .okdone :: rest) :=
  fun _ _ _ => ⟨rfl, rfl, rfl, rfl, rfl⟩

/-! Section: Handle lifecycle (src/fs/handler/entry_handler.rs)

`RefState` is the refcounted view of a `Stat` or an `AltStream` that the
handle machinery touches: its `handle_count`, its `delete_pending` flag and
whether the object is still present in its owner's map (the parent
directory's child map for entries, the Stat's stream map for streams).
`entryHandleDrop` models `EntryHandle::drop` for a non-root entry (the target
has a parent; the root is the only entry without one). -/

structure RefState where
  handleCount : Nat
  deletePending : Bool
  present : Bool
deriving DecidableEq

/-- Model of `EntryHandle::new`: increments the target Stat's `handle_count` and, when
an AltStream is bound, that stream's `handle_count` as well. -/
def entryHandleNew (e : RefState) (s : Option RefState) :
    RefState × Option RefState :=
  ({ e with handleCount := e.handleCount + 1 },
    s.map fun st => { st with handleCount := st.handleCount + 1 })

/-- Stream half of `EntryHandle::drop`: set `delete_pending` on
delete-on-close, decrement, and remove the stream from the Stat's stream map
when the count reaches 0 with a pending delete. Returns the stream's new
state and whether it was removed. -/
def dropStreamPart (delete_on_close : Bool) (st : RefState) : RefState × Bool :=
  let dp := if delete_on_close then true else st.deletePending
  let hc := st.handleCount - 1
  if dp ∧ hc = 0 then (⟨hc, dp, false⟩, true)
  else (⟨hc, dp, st.present⟩, false)

structure DropOut where
  entry : RefState
  removedEntry : Bool
  stream : Option RefState
  removedStream : Bool
deriving DecidableEq

/-- Model of `EntryHandle::drop` for a non-root entry. Delete-on-close marks the
entry's Stat only when no AltStream is bound; the count is decremented; if the
count is now 0 with a pending delete, the entry is removed from its parent's
child map, otherwise `delete_pending` is unconditionally reset to `false`
(the `// Ignore root directory.` else-branch). A bound stream then gets the
analogous two-step treatment. -/
def entryHandleDrop (delete_on_close : Bool) (e : RefState)
    (s : Option RefState) : DropOut :=
  let dp1 := if delete_on_close ∧ s.isNone then true else e.deletePending
  let hc := e.handleCount - 1
  let er :=
    if dp1 ∧ hc = 0 then ((⟨hc, dp1, false⟩ : RefState), true)
    else ((⟨hc, false, e.present⟩ : RefState), false)
  match s with
  | none => ⟨er.1, er.2, none, false⟩
  | some st =>
    let sr := dropStreamPart delete_on_close st
    ⟨er.1, er.2, some sr.1, sr.2⟩

/-- One open/close event on the same entry, for handles that bind no
AltStream; a close carries the closing handle's delete-on-close flag. -/
inductive COp where
  | openOp
  | closeOp (delete_on_close : Bool)
deriving DecidableEq

def applyOp (st : RefState) : COp → RefState
  | .openOp => (entryHandleNew st none).1
  | .closeOp doc => (entryHandleDrop doc st none).entry

def runOps (st : RefState) (ops : List COp) : RefState :=
  ops.foldl applyOp st

def countOpens : List COp → Nat
  | [] => 0
  | .openOp :: rest => countOpens rest + 1
  | .closeOp _ :: rest => countOpens rest

def countCloses : List COp → Nat
  | [] => 0
  | .openOp :: rest => countCloses rest
  | .closeOp _ :: rest => countCloses rest + 1

/-- A trace is valid from `n` live handles when no close outruns the opens. -/
def validFrom : Nat → List COp → Bool
  | _, [] => true
  | n, .openOp :: rest => validFrom (n + 1) rest
  | n, .closeOp _ :: rest => decide (n ≠ 0) && validFrom (n - 1) rest

theorem runOps_count (ops : List COp) :
    ∀ st : RefState, validFrom st.handleCount ops = true →
      (runOps st ops).handleCount + countCloses ops
        = st.handleCount + countOpens ops := by
  induction ops with
  | nil => intro st _; simp [runOps, countOpens, countCloses]
  | cons op rest ih =>
    intro st hv
    rcases op with _ | doc
    · have h1 : (applyOp st .openOp).handleCount = st.handleCount + 1 := rfl
      have h2 := ih (applyOp st .openOp) (by
        rw [h1]; exact hv)
      simp only [runOps, List.foldl_cons] at h2 ⊢
      simp only [countOpens, countCloses] at h2 ⊢
      omega
    · simp only [validFrom, Bool.and_eq_true, decide_eq_true_eq] at hv
      have h0 := hv.1
      have h1 : (applyOp st (.closeOp doc)).handleCount = st.handleCount - 1 := by
        simp only [applyOp, entryHandleDrop]
        by_cases hcond :
            ((if doc ∧ (none : Option RefState).isNone then true
              else st.deletePending) = true ∧ st.handleCount - 1 = 0)
        · rw [if_pos hcond]
        · rw [if_neg hcond]
      have h2 := ih (applyOp st (.closeOp doc)) (by rw [h1]; exact hv.2)
      simp only [runOps, List.foldl_cons] at h2 ⊢
      simp only [countOpens, countCloses] at h2 ⊢
      omega

/-- C6: opening increments the Stat's (and a bound AltStream's) handle count
by exactly 1; dropping decrements each by exactly 1; over any valid balanced
trace of opens and closes the count returns to 0; and a close removes the
entry from its parent's child map exactly when it brings the count to 0 while
delete-on-close or an already pending delete holds — otherwise the entry
stays present. -/
theorem handle_lifecycle_counts :
    (∀ (e : RefState) (s : Option RefState),
      (entryHandleNew e s).1.handleCount = e.handleCount + 1
      ∧ ∀ st, s = some st →
          (entryHandleNew e s).2 = some { st with handleCount := st.handleCount + 1 })
    ∧ (∀ (doc : Bool) (e : RefState) (s : Option RefState),
      (entryHandleDrop doc e s).entry.handleCount = e.handleCount - 1
      ∧ ∀ st, s = some st →
          (entryHandleDrop doc e s).stream = some (dropStreamPart doc st).1
          ∧ (dropStreamPart doc st).1.handleCount = st.handleCount - 1)
    ∧ (∀ ops : List COp, validFrom 0 ops = true →
        countOpens ops = countCloses ops →
        (runOps ⟨0, false, true⟩ ops).handleCount = 0)
    ∧ (∀ (doc : Bool) (e : RefState), 1 ≤ e.handleCount → e.present = true →
        ((entryHandleDrop doc e none).removedEntry = true
            ↔ e.handleCount = 1 ∧ (doc = true ∨ e.deletePending = true))
        ∧ ((entryHandleDrop doc e none).removedEntry = false →
            (entryHandleDrop doc e none).entry.present = true)) := by
  refine ⟨?_, ?_, ?_, ?_⟩
  · intro e s
    refine ⟨rfl, ?_⟩
    rintro st rfl
    rfl
  · intro doc e s
    constructor
    · simp only [entryHandleDrop]
      rcases s with _ | st
      · dsimp only
        by_cases hcond :
            ((if doc ∧ (none : Option RefState).isNone then true
              else e.deletePending) = true ∧ e.handleCount - 1 = 0)
        · rw [if_pos hcond]
        · rw [if_neg hcond]
      · dsimp only
        by_cases hcond :
            ((if doc ∧ (some st : Option RefState).isNone then true
              else e.deletePending) = true ∧ e.handleCount - 1 = 0)
        · rw [if_pos hcond]
        · rw [if_neg hcond]
    · rintro st rfl
      refine ⟨rfl, ?_⟩
      simp only [dropStreamPart]
      by_cases hcond :
          ((if doc then true else st.deletePending) = true ∧ st.handleCount - 1 = 0)
      · rw [if_pos hcond]
      · rw [if_neg hcond]
  · intro ops hv hbal
    have h := runOps_count ops ⟨0, false, true⟩ hv
    have h0 : (⟨0, false, true⟩ : RefState).handleCount = 0 := rfl
    rw [h0] at h
    omega
  · intro doc e h1 hpres
    constructor
    · simp only [entryHandleDrop, Option.isNone_none, and_true]
      by_cases hcond :
          ((if doc then true else e.deletePending) = true ∧ e.handleCount - 1 = 0)
      · rw [if_pos hcond]
        simp only [true_iff]
        rcases hcond with ⟨hdp, hhc⟩
        refine ⟨by omega, ?_⟩
        by_cases hd : doc = true
        · exact Or.inl hd
        · right
          rw [if_neg (by simpa using hd)] at hdp
          exact hdp
      · rw [if_neg hcond]
        simp only [Bool.false_eq_true, false_iff]
        rintro ⟨hhc, hor⟩
        apply hcond
        refine ⟨?_, by omega⟩
        rcases hor with hd | hdp
        · rw [if_pos hd]
        · by_cases hd : doc = true
          · rw [if_pos hd]
          · rw [if_neg (by simpa using hd)]; exact hdp
    · simp only [entryHandleDrop, Option.isNone_none, and_true]
      by_cases hcond :
          ((if doc then true else e.deletePending) = true ∧ e.handleCount - 1 = 0)
      · rw [if_pos hcond]
        intro h
        exact absurd h (by simp)
      · rw [if_neg hcond]
        intro _
        exact hpres

/-- C6 witness: two opens followed by a plain close and a close of the last
handle bring the count back to 0 on a concrete trace. -/
theorem handle_lifecycle_counts_witness :
    (runOps ⟨0, false, true⟩
      [.openOp, .openOp, .closeOp false, .closeOp false]).handleCount = 0 :=
  handle_lifecycle_counts.2.2.1
    [.openOp, .openOp, .closeOp false, .closeOp false] (by decide) (by decide)

/-- C9: whenever a handle drop does not remove the entry, the drop resets the
entry's `delete_pending` flag to `false` — in particular any non-final close
(another handle still open) cancels a pending deletion on any non-root entry. -/
theorem drop_resets_delete_pending :
    (∀ (doc : Bool) (e : RefState) (s : Option RefState),
      (entryHandleDrop doc e s).removedEntry = false →
      (entryHandleDrop doc e s).entry.deletePending = false)
    ∧ (∀ (doc : Bool) (e : RefState) (s : Option RefState),
      2 ≤ e.handleCount →
      (entryHandleDrop doc e s).entry.deletePending = false) := by
  have key : ∀ (doc : Bool) (e : RefState) (s : Option RefState),
      (entryHandleDrop doc e s).removedEntry = false →
      (entryHandleDrop doc e s).entry.deletePending = false := by
    intro doc e s
    simp only [entryHandleDrop]
    rcases s with _ | st
    · dsimp only
      by_cases hcond :
          ((if doc ∧ (none : Option RefState).isNone then true
            else e.deletePending) = true ∧ e.handleCount - 1 = 0)
      · rw [if_pos hcond]
        intro h
        exact absurd h (by simp)
      · rw [if_neg hcond]
        intro _
        rfl
    · dsimp only
      by_cases hcond :
          ((if doc ∧ (some st : Option RefState).isNone then true
            else e.deletePending) = true ∧ e.handleCount - 1 = 0)
      · rw [if_pos hcond]
        intro h
        exact absurd h (by simp)
      · rw [if_neg hcond]
        intro _
        rfl
  refine ⟨key, ?_⟩
  intro doc e s h2
  apply key
  simp only [entryHandleDrop]
  rcases s with _ | st
  · dsimp only
    rw [if_neg (by intro h; omega)]
  · dsimp only
    rw [if_neg (by intro h; omega)]

/-- C9 witness: a close of one of three handles on an entry already marked
delete-pending cancels the pending deletion. -/
theorem drop_resets_delete_pending_witness :
    (entryHandleDrop false ⟨3, true, true⟩ none).entry.deletePending = false :=
  drop_resets_delete_pending.2 false ⟨3, true, true⟩ none (by decide)

/-! Section: Path resolution (src/path.rs lines 105-164)

The entry tree as `find_dir_entry` sees it: a directory's child map, keys
modelled as `String` (the source compares `EntryName`s; the comparison
relation itself does not matter for the properties proved here, plain string
equality is used). `find_dir_entry` walks the intermediate components of a
path: a component longer than `MAX_COMPONENT_LENGTH` is invalid; an existing
directory child is entered; an existing non-directory child is
`STATUS_OBJECT_PATH_NOT_FOUND`; a missing child is synthesized as a brand-new
empty Directory (`create_dir_entry`), inserted into the current directory's
child map, and the walk continues inside it. The function returns the updated
children of the starting directory together with the children of the resolved
target directory. -/

def MAX_COMPONENT_LENGTH : Nat := 255

inductive ETree where
  | file
  | httpFile
  | directory (children : List (String × ETree))

def lookupChild : List (String × ETree) → String → Option ETree
  | [], _ => none
  | (k, v) :: rest, n => if k = n then some v else lookupChild rest n

def setChild : List (String × ETree) → String → ETree → List (String × ETree)
  | [], _, _ => []
  | (k, v) :: rest, n, t => if k = n then (k, t) :: rest else (k, v) :: setChild rest n t

def find_dir_entry (cs : List (String × ETree)) :
    List String → Except Int (List (String × ETree) × List (String × ETree))
  | [] => .ok (cs, cs)
  | n :: rest =>
    if n.length > MAX_COMPONENT_LENGTH then .error STATUS_OBJECT_NAME_INVALID
    else
      match lookupChild cs n with
      | some (.directory cs') =>
        match find_dir_entry cs' rest with
        | .error e => .error e
        | .ok (cs'', tgt) => .ok (setChild cs n (.directory cs''), tgt)
      | some _ => .error STATUS_OBJECT_PATH_NOT_FOUND
      | none =>
        -- create_dir_entry: insert a brand-new empty Directory and continue into it
        match find_dir_entry [] rest with
        | .error e => .error e
        | .ok (cs'', tgt) => .ok (cs ++ [(n, .directory cs'')], tgt)

/-- The intermediate components are well-formed for the claim: each is short
enough and names either an existing directory or nothing at all. -/
def pathOk (cs : List (String × ETree)) : List String → Bool
  | [] => true
  | n :: rest =>
    decide (n.length ≤ MAX_COMPONENT_LENGTH) &&
      match lookupChild cs n with
      | some (.directory cs') => pathOk cs' rest
      | some _ => false
      | none => pathOk [] rest

/-- After resolution, every component of the path is present as a directory
along the chain. -/
def dirsMaterialized (cs : List (String × ETree)) : List String → Bool
  | [] => true
  | n :: rest =>
    match lookupChild cs n with
    | some (.directory cs') => dirsMaterialized cs' rest
    | _ => false

def exceptOk {α : Type} : Except Int α → Bool
  | .ok _ => true
  | .error _ => false

def okChildren :
    Except Int (List (String × ETree) × List (String × ETree)) →
      List (String × ETree)
  | .ok (cs, _) => cs
  | .error _ => []

theorem lookupChild_append_self (cs : List (String × ETree)) (n : String)
    (t : ETree) (h : lookupChild cs n = none) :
    lookupChild (cs ++ [(n, t)]) n = some t := by
  induction cs with
  | nil => simp [lookupChild]
  | cons kv rest ih =>
    rcases kv with ⟨k, v⟩
    simp only [lookupChild] at h ⊢
    by_cases hk : k = n
    · rw [if_pos hk] at h
      exact absurd h (by simp)
    · rw [if_neg hk] at h ⊢
      exact ih h

theorem lookupChild_setChild_self (cs : List (String × ETree)) (n : String)
    (t t' : ETree) (h : lookupChild cs n = some t) :
    lookupChild (setChild cs n t') n = some t' := by
  induction cs with
  | nil => simp [lookupChild] at h
  | cons kv rest ih =>
    rcases kv with ⟨k, v⟩
    simp only [lookupChild, setChild] at h ⊢
    by_cases hk : k = n
    · rw [if_pos hk]
      simp only [lookupChild, if_pos hk]
    · rw [if_neg hk] at h ⊢
      simp only [lookupChild, if_neg hk]
      exact ih h

/-- C7: resolving a path whose intermediate components name only existing
directories or nothing never fails (in particular never with a not-found
status): every missing component is synthesized as a brand-new empty
Directory, inserted into its parent's child map, and resolution continues
into it, so that afterwards the whole chain of components exists as
directories. -/
theorem resolve_autovivify :
    ∀ (path : List String) (cs : List (String × ETree)),
      pathOk cs path = true →
      exceptOk (find_dir_entry cs path) = true
      ∧ dirsMaterialized (okChildren (find_dir_entry cs path)) path = true := by
  intro path
  induction path with
  | nil =>
    intro cs _
    exact ⟨rfl, rfl⟩
  | cons n rest ih =>
    intro cs hok
    simp only [pathOk, Bool.and_eq_true, decide_eq_true_eq] at hok
    obtain ⟨hlen, hok⟩ := hok
    simp only [find_dir_entry, if_neg (by omega : ¬ n.length > MAX_COMPONENT_LENGTH)]
    rcases hcs : lookupChild cs n with _ | t
    · rw [hcs] at hok
      have ⟨ih1, ih2⟩ := ih [] hok
      rcases hfd : find_dir_entry [] rest with e | ⟨cs'', tgt⟩
      · rw [hfd] at ih1
        exact absurd ih1 (by simp [exceptOk])
      · rw [hfd] at ih2
        refine ⟨rfl, ?_⟩
        simp only [okChildren, dirsMaterialized] at ih2 ⊢
        rw [lookupChild_append_self cs n _ hcs]
        exact ih2
    · rcases t with _ | _ | cs'
      · rw [hcs] at hok
        exact absurd hok (by simp)
      · rw [hcs] at hok
        exact absurd hok (by simp)
      · rw [hcs] at hok
        have ⟨ih1, ih2⟩ := ih cs' hok
        rcases hfd : find_dir_entry cs' rest with e | ⟨cs'', tgt⟩
        · rw [hfd] at ih1
          exact absurd ih1 (by simp [exceptOk])
        · rw [hfd] at ih2
          simp only [hfd, okChildren, dirsMaterialized, exceptOk] at ih2 ⊢
          refine ⟨trivial, ?_⟩
          rw [lookupChild_setChild_self cs n _ _ hcs]
          exact ih2

/-- C7 witness: resolving `\a\b\c`'s parent chain `a\b` in an empty tree
succeeds, materializing both intermediate directories. -/
theorem resolve_autovivify_witness :
    exceptOk (find_dir_entry [] ["a", "b"]) = true
    ∧ dirsMaterialized (okChildren (find_dir_entry [] ["a", "b"])) ["a", "b"] = true :=
  resolve_autovivify ["a", "b"] [] (by decide)

/-! Section: Stream names (src/path.rs lines 15-50) -/

inductive StreamTypeM where
  | data
  | indexAllocation
  | bitmap
deriving DecidableEq

structure StreamInfoM where
  name : String
  type_ : StreamTypeM
deriving DecidableEq

/-- Model of `StreamInfo::check_default`: `Ok true` means "this is the implicit
default, no AltStream object needed". -/
def StreamInfoM.check_default (si : StreamInfoM) (is_dir : Bool) :
    Except Int Bool :=
  if is_dir then
    if si.name = "" ∨ si.name = "$I30" then
      if si.type_ = .indexAllocation then .ok true
      else .error STATUS_OBJECT_NAME_INVALID
    else if si.type_ = .data then .ok false
    else .error STATUS_OBJECT_NAME_INVALID
  else if si.type_ = .data then .ok (decide (si.name = ""))
  else .error STATUS_OBJECT_NAME_INVALID

/-! Section: `create_file`, existing-entry arm (src/fs/handler/memfs_handler.rs
lines 494-680)

The target entry of a Create/Open once path resolution found it under its
parent. The stored attribute value, the `delete_pending` flag and the named
alternate streams are the parts the existing-entry arm consults. -/

inductive EntryKindM where
  | file (data : List Nat)
  | httpFile (download_pending : Bool)
  | directory
deriving DecidableEq

structure EntryM where
  kind : EntryKindM
  attrs : Nat
  deletePending : Bool
  altStreams : List (String × AltStreamM)
deriving DecidableEq

def EntryM.isDir (e : EntryM) : Bool :=
  match e.kind with
  | .directory => true
  | _ => false

def lookupStream : List (String × AltStreamM) → String → Option AltStreamM
  | [], _ => none
  | (k, v) :: rest, n => if k = n then some v else lookupStream rest n

def setStream : List (String × AltStreamM) → String → AltStreamM →
    List (String × AltStreamM)
  | [], _, _ => []
  | (k, v) :: rest, n, t =>
    if k = n then (k, t) :: rest else (k, v) :: setStream rest n t

/-- Result of a successful Create/Open against an existing entry: the entry's
state after the side effects, whether the handle got an AltStream bound,
whether a download task was spawned, and the `is_dir` / `new_file_created`
fields of the returned `CreateFileInfo`. -/
structure OpenOut where
  entry : EntryM
  boundStream : Bool
  isDir : Bool
  newFileCreated : Bool
  downloadStarted : Bool
deriving DecidableEq

/-- Kind dispatch of the existing-entry arm (reached when no real alternate
stream is requested): lines 582-680. -/
def open_entry_kind (entry : EntryM) (file_attributes create_disposition
    create_options : Nat) (is_readonly is_hidden_system : Bool) :
    Except Int OpenOut :=
  match entry.kind with
  | .file _ =>
    if create_options &&& FILE_DIRECTORY_FILE ≠ 0 then
      .error STATUS_NOT_A_DIRECTORY
    else if create_disposition = FILE_SUPERSEDE ∨ create_disposition = FILE_OVERWRITE
        ∨ create_disposition = FILE_OVERWRITE_IF then
      if (decide (create_disposition ≠ FILE_SUPERSEDE) && is_readonly)
          || is_hidden_system then
        .error STATUS_ACCESS_DENIED
      else
        .ok { entry := { entry with
                kind := .file [],
                attrs := attributes_new (file_attributes ||| FILE_ATTRIBUTE_ARCHIVE) },
              boundStream := false, isDir := false,
              newFileCreated := false, downloadStarted := false }
    else if create_disposition = FILE_CREATE then
      .error STATUS_OBJECT_NAME_COLLISION
    else
      .ok { entry := entry, boundStream := false, isDir := false,
            newFileCreated := false, downloadStarted := false }
  | .httpFile _ =>
    if create_options &&& FILE_DIRECTORY_FILE ≠ 0 then
      .error STATUS_FILE_IS_A_DIRECTORY
    else if create_disposition = FILE_OPEN ∨ create_disposition = FILE_OPEN_IF then
      -- sets download_pending, spawns a fresh stream + download task and
      -- binds the stream to the handle
      .ok { entry := { entry with kind := .httpFile true },
            boundStream := true, isDir := false,
            newFileCreated := false, downloadStarted := true }
    else if create_disposition = FILE_CREATE then
      .error STATUS_OBJECT_NAME_COLLISION
    else .error STATUS_INVALID_PARAMETER
  | .directory =>
    if create_options &&& FILE_NON_DIRECTORY_FILE ≠ 0 then
      .error STATUS_FILE_IS_A_DIRECTORY
    else if create_disposition = FILE_OPEN ∨ create_disposition = FILE_OPEN_IF then
      .ok { entry := entry, boundStream := false, isDir := true,
            newFileCreated := false, downloadStarted := false }
    else if create_disposition = FILE_CREATE then
      .error STATUS_OBJECT_NAME_COLLISION
    else .error STATUS_INVALID_PARAMETER

/-- Existing-entry arm of `create_file`. Note the source's hardcoded
`let is_readonly = true;` (the stored attribute check is commented out). -/
def create_file_existing (entry : EntryM) (desired_access file_attributes
    create_disposition create_options : Nat) (stream_info : Option StreamInfoM) :
    Except Int OpenOut :=
  let delete_on_close : Bool := decide (create_options &&& FILE_DELETE_ON_CLOSE ≠ 0)
  let is_readonly : Bool := true
  let is_hidden_system : Bool :=
    decide (entry.attrs &&& FILE_ATTRIBUTE_HIDDEN ≠ 0) &&
    decide (entry.attrs &&& FILE_ATTRIBUTE_SYSTEM ≠ 0) &&
    !(decide (file_attributes &&& FILE_ATTRIBUTE_HIDDEN ≠ 0) &&
      decide (file_attributes &&& FILE_ATTRIBUTE_SYSTEM ≠ 0))
  if is_readonly && (decide (desired_access &&& FILE_WRITE_DATA ≠ 0)
      || decide (desired_access &&& FILE_APPEND_DATA ≠ 0)) then
    .error STATUS_ACCESS_DENIED
  else if entry.deletePending then
    .error STATUS_DELETE_PENDING
  else if is_readonly && delete_on_close then
    .error STATUS_CANNOT_DELETE
  else
    match stream_info with
    | none =>
      open_entry_kind entry file_attributes create_disposition create_options
        is_readonly is_hidden_system
    | some si =>
      match si.check_default entry.isDir with
      | .error e => .error e
      | .ok true =>
        open_entry_kind entry file_attributes create_disposition create_options
          is_readonly is_hidden_system
      | .ok false =>
        match lookupStream entry.altStreams si.name with
        | some stream =>
          if stream.deletePending then .error STATUS_DELETE_PENDING
          else if create_disposition = FILE_SUPERSEDE
              ∨ create_disposition = FILE_OVERWRITE
              ∨ create_disposition = FILE_OVERWRITE_IF then
            if decide (create_disposition ≠ FILE_SUPERSEDE) && is_readonly then
              .error STATUS_ACCESS_DENIED
            else
              .ok { entry := { entry with
                      attrs := entry.attrs ||| FILE_ATTRIBUTE_ARCHIVE,
                      altStreams := setStream entry.altStreams si.name
                        { stream with data := [] } },
                    boundStream := true, isDir := false,
                    newFileCreated := false, downloadStarted := false }
          else if create_disposition = FILE_CREATE then
            .error STATUS_OBJECT_NAME_COLLISION
          else
            .ok { entry := entry, boundStream := true, isDir := false,
                  newFileCreated := false, downloadStarted := false }
        | none =>
          if create_disposition = FILE_OPEN ∨ create_disposition = FILE_OVERWRITE then
            .error STATUS_OBJECT_NAME_NOT_FOUND
          else if is_readonly then
            .error STATUS_ACCESS_DENIED
          else
            .ok { entry := { entry with
                    altStreams := entry.altStreams ++ [(si.name, AltStreamM.new)] },
                  boundStream := true, isDir := false,
                  newFileCreated := true, downloadStarted := false }

/-- C8: the existing-entry arm treats every entry as unconditionally readonly,
whatever its stored readonly attribute bit: any request with write or append
data access fails with access-denied, and (when no write access forced the
earlier failure and no delete is already pending) any delete-on-close request
fails with cannot-delete. -/
theorem create_existing_readonly_checks :
    ∀ (entry : EntryM) (desired_access file_attributes create_disposition
        create_options : Nat) (stream_info : Option StreamInfoM),
      (desired_access &&& FILE_WRITE_DATA ≠ 0 ∨ desired_access &&& FILE_APPEND_DATA ≠ 0 →
        create_file_existing entry desired_access file_attributes
          create_disposition create_options stream_info = .error STATUS_ACCESS_DENIED)
      ∧ (desired_access &&& FILE_WRITE_DATA = 0 → desired_access &&& FILE_APPEND_DATA = 0 →
          entry.deletePending = false → create_options &&& FILE_DELETE_ON_CLOSE ≠ 0 →
        create_file_existing entry desired_access file_attributes
          create_disposition create_options stream_info = .error STATUS_CANNOT_DELETE) := by
  intro entry da fa cd co si
  constructor
  · intro h
    rcases h with h' | h' <;> simp [create_file_existing, h']
  · intro h1 h2 h3 h4
    simp [create_file_existing, h1, h2, h3, h4]

/-- C8 witness: on an entry whose stored attributes are 0 (readonly bit
clear), requesting write access is denied, and requesting delete-on-close
without write access yields cannot-delete. -/
theorem create_existing_readonly_checks_witness :
    create_file_existing ⟨.file [104], 0, false, []⟩ FILE_WRITE_DATA 0 FILE_OPEN 0 none
        = .error STATUS_ACCESS_DENIED
    ∧ create_file_existing ⟨.file [104], 0, false, []⟩ 0 0 FILE_OPEN
        FILE_DELETE_ON_CLOSE none = .error STATUS_CANNOT_DELETE :=
  ⟨(create_existing_readonly_checks ⟨.file [104], 0, false, []⟩ FILE_WRITE_DATA 0
      FILE_OPEN 0 none).1 (Or.inl (by decide)),
    (create_existing_readonly_checks ⟨.file [104], 0, false, []⟩ 0 0 FILE_OPEN
      FILE_DELETE_ON_CLOSE none).2 (by decide) (by decide) rfl (by decide)⟩

/-! Section: `create_file`, missing-leaf arm (src/fs/handler/memfs_handler.rs
lines 681-742, `create_new` lines 111-171, `create_new_http` lines 172-281) -/

/-- The URL an HttpFile is bound to: the mount's base URL joined with the
relative path (the empty path maps to `index.html`). The `url` crate's join
is kept abstract as the pair of its arguments. -/
inductive RemoteUrl where
  | join (base : String) (rel : String)
deriving DecidableEq

inductive NewKindM where
  | localFile
  | localDir
  | remoteHttp (url : RemoteUrl)
deriving DecidableEq

/-- Result of a successful creation of a missing leaf: what kind of entry was
inserted, its initial content buffer, whether a download task was started,
whether the handle got an AltStream bound, and the returned `CreateFileInfo`
fields. -/
structure NewOut where
  kind : NewKindM
  data : List Nat
  downloadStarted : Bool
  boundStream : Bool
  newFileCreated : Bool
  isDirOut : Bool
deriving DecidableEq

/-- Model of `MemFsHandler::create_new`: a purely local, empty File (or Directory),
with an optional real alternate stream per the parsed stream suffix. -/
def create_new (stream_info : Option StreamInfoM) (attrs : Nat)
    (delete_on_close : Bool) (is_dir : Bool) : Except Int NewOut :=
  if attrs &&& FILE_ATTRIBUTE_READONLY ≠ 0 ∧ delete_on_close = true then
    .error STATUS_CANNOT_DELETE
  else
    let streamRes : Except Int Bool :=
      match stream_info with
      | some si =>
        match si.check_default is_dir with
        | .error e => .error e
        | .ok true => .ok false
        | .ok false => .ok true
      | none => .ok false
    match streamRes with
    | .error e => .error e
    | .ok hasStream =>
      .ok { kind := if is_dir then .localDir else .localFile,
            data := [],
            downloadStarted := false,
            boundStream := hasStream,
            newFileCreated := true,
            isDirOut := is_dir && hasStream }

/-- Model of `MemFsHandler::create_new_http`: a fetch-through miss. A fresh HttpFile
entry is bound to `base.join(path)` (empty path → `index.html`); a fresh
AltStream is created, registered in the entry's stream map, bound to the
handle, and a download task is submitted to the pool
(`create_new_http_stream`). -/
def create_new_http (base : String) (name : String) (attrs : Nat)
    (delete_on_close : Bool) (is_dir : Bool) (full_download : Bool) :
    Except Int NewOut :=
  if attrs &&& FILE_ATTRIBUTE_READONLY ≠ 0 ∧ delete_on_close = true then
    .error STATUS_CANNOT_DELETE
  else
    let hs := create_new_http_stream full_download
    .ok { kind := .remoteHttp (.join base (if name = "" then "index.html" else name)),
          data := [],
          downloadStarted := hs.taskSubmitted,
          boundStream := true,
          newFileCreated := true,
          isDirOut := is_dir && true }

/-- Missing-leaf arm of `create_file`: the leaf was not found under its
(resolved) parent. -/
def create_file_missing (base : String) (parent_delete_pending : Bool)
    (full_path : String) (stream_info : Option StreamInfoM)
    (desired_access file_attributes create_disposition create_options : Nat) :
    Except Int NewOut :=
  let delete_on_close : Bool := decide (create_options &&& FILE_DELETE_ON_CLOSE ≠ 0)
  if parent_delete_pending then .error STATUS_DELETE_PENDING
  else if create_options &&& FILE_DIRECTORY_FILE ≠ 0 then
    if create_disposition = FILE_CREATE ∨ create_disposition = FILE_OPEN_IF then
      create_new stream_info file_attributes delete_on_close true
    else if create_disposition = FILE_OPEN then .error STATUS_OBJECT_NAME_NOT_FOUND
    else .error STATUS_INVALID_PARAMETER
  else if create_disposition = FILE_OPEN ∨ create_disposition = FILE_OVERWRITE then
    create_new_http base full_path (file_attributes ||| FILE_ATTRIBUTE_ARCHIVE)
      delete_on_close false (decide (desired_access ≠ FILE_READ_ATTRIBUTES))
  else
    create_new stream_info (file_attributes ||| FILE_ATTRIBUTE_ARCHIVE)
      delete_on_close false

/-- C3: a Create/Open on a missing leaf with a non-directory request
dispatches on the disposition: `FILE_OPEN` or `FILE_OVERWRITE` is a
fetch-through miss — a new HttpFile entry bound to `base.join(path)` is
created with a download task started immediately — while every other
disposition (Create, OpenIf, Supersede, OverwriteIf) creates a new, empty,
purely local File entry with no remote backing and no download task. -/
theorem create_file_missing_dispatch :
    ∀ (base full_path : String) (desired_access file_attributes
        create_disposition create_options : Nat),
      create_disposition ≤ FILE_MAXIMUM_DISPOSITION →
      create_options &&& FILE_DIRECTORY_FILE = 0 →
      create_options &&& FILE_DELETE_ON_CLOSE = 0 →
      ((create_disposition = FILE_OPEN ∨ create_disposition = FILE_OVERWRITE) →
        create_file_missing base false full_path none desired_access
            file_attributes create_disposition create_options =
          .ok { kind := .remoteHttp
                  (.join base (if full_path = "" then "index.html" else full_path)),
                data := [], downloadStarted := true, boundStream := true,
                newFileCreated := true, isDirOut := false })
      ∧ ((create_disposition ≠ FILE_OPEN ∧ create_disposition ≠ FILE_OVERWRITE) →
        create_file_missing base false full_path none desired_access
            file_attributes create_disposition create_options =
          .ok { kind := .localFile, data := [], downloadStarted := false,
                boundStream := false, newFileCreated := true, isDirOut := false }) := by
  intro base full_path da fa cd co _ hdir hdoc
  constructor
  · intro hcd
    simp [create_file_missing, create_new_http, create_new_http_stream,
      hdir, hdoc, hcd]
  · intro hcd
    have hne : ¬(cd = FILE_OPEN ∨ cd = FILE_OVERWRITE) := by
      rintro (h | h)
      · exact hcd.1 h
      · exact hcd.2 h
    simp [create_file_missing, create_new, hdir, hdoc, hne]

/-- C3 witness: opening a never-materialized leaf with disposition
`FILE_OPEN` creates an HttpFile bound to the joined URL and starts the
download. -/
theorem create_file_missing_dispatch_witness :
    create_file_missing "http://example.com/" false "docs\\readme.txt" none
        1 0 FILE_OPEN 0 =
      .ok { kind := .remoteHttp (.join "http://example.com/" "docs\\readme.txt"),
            data := [], downloadStarted := true, boundStream := true,
            newFileCreated := true, isDirOut := false } :=
  (create_file_missing_dispatch "http://example.com/" "docs\\readme.txt" 1 0
      FILE_OPEN 0 (by decide) (by decide) (by decide)).1 (Or.inl rfl)

end HFB
